import Mathlib

/-!
Verification of the format-detection heuristic of the
`azure-doc-intelligence-test` repository.

The repository holds three near-duplicate Python scripts, each with a
method `_detect_format(content)` that classifies a block of extracted
document text as HTML, Markdown, JSON or plain text by counting which
indicator substrings occur in the content.  We embed each script's
classifier as a total Lean function over `List Char` (the document
content, Python `str`), together with the label-extraction performed by
`_create_report` (which recovers the category of a detection string by
substring tests), and prove the specified properties.

Modelling notes:
* Python's substring test `needle in haystack` is embedded as
  `subOccurs`, a direct substring scan.
* Python's `str.lower()` is embedded as `List.map Char.toLower`; on the
  ASCII indicator substrings and contents involved here the two agree
  character for character.
* Python's `sum(1 for indicator in indicators if indicator in content)`
  is embedded as the length of the filtered indicator list
  (`count_indicators`).
* The Python methods return a formatted string such as
  `"HTML (indicators: 3)"`; the embeddings return the same strings.
-/

/-- Substring occurrence: `subOccurs needle haystack` is `true` iff
`needle` occurs contiguously somewhere in `haystack`.  This embeds
Python's `needle in haystack` test on strings. -/
def subOccurs (needle : List Char) : List Char → Bool
  | [] => needle.isEmpty
  | c :: rest => needle.isPrefixOf (c :: rest) || subOccurs needle rest

/-- Count of the indicator substrings (list entries) that occur at least
once in the content.  This embeds the Python pattern
`sum(1 for indicator in indicators if indicator in content)`. -/
def count_indicators (indicators : List (List Char)) (content : List Char) : Nat :=
  (indicators.filter (fun indicator => subOccurs indicator content)).length

/-- The four category labels a detection string can fall into
(`HTML`, `Markdown`, `JSON`, plain text). -/
inductive Label
  | HTML
  | Markdown
  | JSON
  | PlainText
deriving DecidableEq

/-- Label extraction from a detection string, embedding the branch tests
of `_create_report` in `output-checker-layout-api.py` (lines 129-139):
`if "HTML" in format_detected: ... elif "Markdown" in ... elif "JSON"
in ... else: plain`. -/
def labelOf (s : String) : Label :=
  if subOccurs ("HTML".toList) s.toList then Label.HTML
  else if subOccurs ("Markdown".toList) s.toList then Label.Markdown
  else if subOccurs ("JSON".toList) s.toList then Label.JSON
  else Label.PlainText

namespace OutputChecker

/-- HTML indicator list of `output-checker-layout-api.py`, line 93. -/
def html_indicators : List (List Char) :=
  ["<html>".toList, "<div>".toList, "<p>".toList, "<table>".toList,
   "<tr>".toList, "<td>".toList, "<span>".toList, "<h1>".toList, "<h2>".toList]

/-- Markdown indicator list of `output-checker-layout-api.py`, line 97. -/
def markdown_indicators : List (List Char) :=
  ["# ".toList, "## ".toList, "### ".toList, "**".toList, "*".toList,
   "- ".toList, "1. ".toList, "|".toList, "```".toList]

/-- JSON indicator list of `output-checker-layout-api.py`, line 101. -/
def json_indicators : List (List Char) :=
  ["\x7b".toList, "\x7d".toList, "\":".toList, "[\"".toList, "\"]".toList]

/-- HTML indicator count of `_detect_format` (line 94): the scan runs on
the lower-cased content `content_lower = content.lower()`. -/
def html_count (content : List Char) : Nat :=
  count_indicators html_indicators (content.map Char.toLower)

/-- Markdown indicator count of `_detect_format` (line 98): the scan
runs on the original content. -/
def markdown_count (content : List Char) : Nat :=
  count_indicators markdown_indicators content

/-- JSON indicator count of `_detect_format` (line 102): the scan runs
on the original content. -/
def json_count (content : List Char) : Nat :=
  count_indicators json_indicators content

/-- `_detect_format` of `output-checker-layout-api.py` (lines 88-111):
counts indicators then resolves by priority HTML (count > 0), Markdown
(count > 2), JSON (count > 3), else plain text, returning the script's
formatted result strings. -/
def detect_format (content : List Char) : String :=
  if html_count content > 0 then
    "HTML (indicators: " ++ toString (html_count content) ++ ")"
  else if markdown_count content > 2 then
    "Markdown (indicators: " ++ toString (markdown_count content) ++ ")"
  else if json_count content > 3 then
    "JSON (indicators: " ++ toString (json_count content) ++ ")"
  else
    "Plain text"

end OutputChecker

namespace TestLayoutApi2

/-- HTML indicator list of `test_layout_api2.py`, line 93 (identical to
the one in `output-checker-layout-api.py`). -/
def html_indicators : List (List Char) :=
  ["<html>".toList, "<div>".toList, "<p>".toList, "<table>".toList,
   "<tr>".toList, "<td>".toList, "<span>".toList, "<h1>".toList, "<h2>".toList]

/-- Markdown indicator list of `test_layout_api2.py`, line 97. -/
def markdown_indicators : List (List Char) :=
  ["# ".toList, "## ".toList, "### ".toList, "**".toList, "*".toList,
   "- ".toList, "1. ".toList, "|".toList, "```".toList]

/-- JSON indicator list of `test_layout_api2.py`, line 101. -/
def json_indicators : List (List Char) :=
  ["\x7b".toList, "\x7d".toList, "\":".toList, "[\"".toList, "\"]".toList]

/-- HTML indicator count of `test_layout_api2.py`'s `_detect_format`
(line 94), scanned on the lower-cased content. -/
def html_count (content : List Char) : Nat :=
  count_indicators html_indicators (content.map Char.toLower)

/-- Markdown indicator count (line 98), scanned on the original content. -/
def markdown_count (content : List Char) : Nat :=
  count_indicators markdown_indicators content

/-- JSON indicator count (line 102), scanned on the original content. -/
def json_count (content : List Char) : Nat :=
  count_indicators json_indicators content

/-- `_detect_format` of `test_layout_api2.py` (lines 88-111): same logic
as `output-checker-layout-api.py`, Spanish result strings. -/
def detect_format (content : List Char) : String :=
  if html_count content > 0 then
    "HTML (indicadores: " ++ toString (html_count content) ++ ")"
  else if markdown_count content > 2 then
    "Markdown (indicadores: " ++ toString (markdown_count content) ++ ")"
  else if json_count content > 3 then
    "JSON (indicadores: " ++ toString (json_count content) ++ ")"
  else
    "Texto plano"

end TestLayoutApi2

namespace TestLayoutApi

/-- HTML indicator list of `test_layout_api.py`, line 61 (no `<h1>` or
`<h2>` entry, unlike the other two scripts). -/
def html_indicators : List (List Char) :=
  ["<html>".toList, "<div>".toList, "<p>".toList, "<table>".toList,
   "<tr>".toList, "<td>".toList, "<span>".toList]

/-- Markdown indicator list of `test_layout_api.py`, line 65 (no
backtick-fence entry, unlike the other two scripts). -/
def markdown_indicators : List (List Char) :=
  ["# ".toList, "## ".toList, "### ".toList, "**".toList, "*".toList,
   "- ".toList, "1. ".toList, "|".toList]

/-- HTML indicator count of `test_layout_api.py`'s `_detect_format`
(line 62), scanned on the lower-cased content. -/
def html_count (content : List Char) : Nat :=
  count_indicators html_indicators (content.map Char.toLower)

/-- Markdown indicator count (line 66), scanned on the original content. -/
def markdown_count (content : List Char) : Nat :=
  count_indicators markdown_indicators content

/-- `_detect_format` of `test_layout_api.py` (lines 56-73): only HTML
and Markdown are detected; there is no JSON branch. -/
def detect_format (content : List Char) : String :=
  if html_count content > 0 then
    "HTML (indicadores: " ++ toString (html_count content) ++ ")"
  else if markdown_count content > 2 then
    "Markdown (indicadores: " ++ toString (markdown_count content) ++ ")"
  else
    "Texto plano"

end TestLayoutApi

/-! ### Basic lemmas about `subOccurs` and `count_indicators` -/

lemma isPrefixOf_iff_append (n h : List Char) :
    n.isPrefixOf h = true ↔ ∃ t, h = n ++ t := by
  induction n generalizing h with
  | nil => simp
  | cons a n ih =>
    cases h with
    | nil => simp
    | cons b t =>
      simp only [List.isPrefixOf_cons₂, Bool.and_eq_true, beq_iff_eq, ih,
        List.cons_append, List.cons.injEq]
      constructor
      · rintro ⟨rfl, t', rfl⟩; exact ⟨t', rfl, rfl⟩
      · rintro ⟨t', rfl, rfl⟩; exact ⟨rfl, t', rfl⟩

lemma subOccurs_iff_append (n h : List Char) :
    subOccurs n h = true ↔ ∃ pre post, h = pre ++ n ++ post := by
  induction h with
  | nil =>
    simp only [subOccurs, List.isEmpty_iff]
    constructor
    · rintro rfl; exact ⟨[], [], rfl⟩
    · rintro ⟨pre, post, hp⟩
      rcases List.append_eq_nil.mp (List.append_eq_nil.mp hp.symm).1 with ⟨-, h2⟩
      exact h2
  | cons a t ih =>
    simp only [subOccurs, Bool.or_eq_true, isPrefixOf_iff_append, ih]
    constructor
    · rintro (⟨s, hs⟩ | ⟨pre, post, rfl⟩)
      · exact ⟨[], s, by simpa using hs⟩
      · exact ⟨a :: pre, post, rfl⟩
    · rintro ⟨pre, post, hp⟩
      cases pre with
      | nil => exact Or.inl ⟨post, by simpa using hp⟩
      | cons x xs =>
        rcases List.cons.injEq .. ▸ hp with ⟨-, h2⟩
        exact Or.inr ⟨xs, post, h2⟩

/-- Substring occurrence is transitive: if `n` occurs in `m` and `m`
occurs in `h`, then `n` occurs in `h`. -/
lemma subOccurs_trans {n m h : List Char} (h1 : subOccurs n m = true)
    (h2 : subOccurs m h = true) : subOccurs n h = true := by
  rcases (subOccurs_iff_append n m).mp h1 with ⟨p1, q1, rfl⟩
  rcases (subOccurs_iff_append _ h).mp h2 with ⟨p2, q2, rfl⟩
  exact (subOccurs_iff_append n _).mpr ⟨p2 ++ p1, q1 ++ q2, by simp⟩

/-- An indicator count never exceeds the length of the indicator list. -/
lemma count_indicators_le (inds : List (List Char)) (c : List Char) :
    count_indicators inds c ≤ inds.length :=
  List.length_filter_le _ _

/-- An indicator count is zero exactly when no indicator occurs. -/
lemma count_indicators_eq_zero (inds : List (List Char)) (c : List Char) :
    count_indicators inds c = 0 ↔ ∀ i ∈ inds, ¬ subOccurs i c = true := by
  simp [count_indicators, List.length_eq_zero]

/-- The indicator count only depends on which indicators are present. -/
lemma count_indicators_congr {inds : List (List Char)} {c c' : List Char}
    (h : ∀ i ∈ inds, subOccurs i c = subOccurs i c') :
    count_indicators inds c = count_indicators inds c' := by
  unfold count_indicators
  rw [List.filter_congr h]

/-- For a duplicate-free indicator list, the count is the number of
distinct indicators present at least once. -/
lemma count_indicators_eq_card {inds : List (List Char)} (c : List Char)
    (hnd : inds.Nodup) :
    count_indicators inds c
      = (inds.toFinset.filter (fun i => subOccurs i c = true)).card := by
  unfold count_indicators
  rw [← List.toFinset_card_of_nodup (hnd.filter _), List.toFinset_filter]

/-- Counts restricted to a sub-list of indicators cannot be larger. -/
lemma count_indicators_sublist_le {inds inds' : List (List Char)}
    (hs : inds'.Sublist inds) (c : List Char) :
    count_indicators inds' c ≤ count_indicators inds c := by
  unfold count_indicators
  rw [← List.countP_eq_length_filter, ← List.countP_eq_length_filter]
  exact hs.countP_le _

/-- Three pairwise distinct indicators that all occur force a count of
at least 3. -/
lemma three_le_count_indicators {inds : List (List Char)}
    {a b d : List Char} (hsub : [a, b, d].Sublist inds) (c : List Char)
    (ha : subOccurs a c = true) (hb : subOccurs b c = true)
    (hd : subOccurs d c = true) :
    3 ≤ count_indicators inds c := by
  have h3 : count_indicators [a, b, d] c = 3 := by
    simp [count_indicators, ha, hb, hd]
  calc 3 = count_indicators [a, b, d] c := h3.symm
    _ ≤ count_indicators inds c := count_indicators_sublist_le hsub c

/-! ### Label extraction on the scripts' result strings

The detection strings embed the winning count, which is bounded by the
length of the indicator list (at most 9); for each possible count value
the label extraction of `_create_report` is evaluated directly. -/

lemma labelOf_html_en {n : Nat} (h1 : 0 < n) (h2 : n ≤ 9) :
    labelOf ("HTML (indicators: " ++ toString n ++ ")") = Label.HTML := by
  interval_cases n <;> decide

lemma labelOf_markdown_en {n : Nat} (h1 : 2 < n) (h2 : n ≤ 9) :
    labelOf ("Markdown (indicators: " ++ toString n ++ ")") = Label.Markdown := by
  interval_cases n <;> decide

lemma labelOf_json_en {n : Nat} (h1 : 3 < n) (h2 : n ≤ 5) :
    labelOf ("JSON (indicators: " ++ toString n ++ ")") = Label.JSON := by
  interval_cases n <;> decide

lemma labelOf_plain_en : labelOf "Plain text" = Label.PlainText := by decide

lemma labelOf_html_es {n : Nat} (h1 : 0 < n) (h2 : n ≤ 9) :
    labelOf ("HTML (indicadores: " ++ toString n ++ ")") = Label.HTML := by
  interval_cases n <;> decide

lemma labelOf_markdown_es {n : Nat} (h1 : 2 < n) (h2 : n ≤ 9) :
    labelOf ("Markdown (indicadores: " ++ toString n ++ ")") = Label.Markdown := by
  interval_cases n <;> decide

lemma labelOf_json_es {n : Nat} (h1 : 3 < n) (h2 : n ≤ 5) :
    labelOf ("JSON (indicadores: " ++ toString n ++ ")") = Label.JSON := by
  interval_cases n <;> decide

lemma labelOf_plain_es : labelOf "Texto plano" = Label.PlainText := by decide

/-! ### Count bounds and branch characterizations per script -/

lemma oc_html_count_le (c : List Char) : OutputChecker.html_count c ≤ 9 :=
  count_indicators_le _ _

lemma oc_markdown_count_le (c : List Char) : OutputChecker.markdown_count c ≤ 9 :=
  count_indicators_le _ _

lemma oc_json_count_le (c : List Char) : OutputChecker.json_count c ≤ 5 :=
  count_indicators_le _ _

lemma tla_html_count_le (c : List Char) : TestLayoutApi.html_count c ≤ 7 :=
  count_indicators_le _ _

lemma tla_markdown_count_le (c : List Char) : TestLayoutApi.markdown_count c ≤ 8 :=
  count_indicators_le _ _

/-- The second script's counts coincide with the first script's: the
indicator lists are identical between the two files. -/
lemma tla2_counts_eq (c : List Char) :
    TestLayoutApi2.html_count c = OutputChecker.html_count c
    ∧ TestLayoutApi2.markdown_count c = OutputChecker.markdown_count c
    ∧ TestLayoutApi2.json_count c = OutputChecker.json_count c :=
  ⟨rfl, rfl, rfl⟩

lemma oc_detect_eq_html {c : List Char}
    (h : 0 < OutputChecker.html_count c) :
    OutputChecker.detect_format c
      = "HTML (indicators: " ++ toString (OutputChecker.html_count c) ++ ")" := by
  unfold OutputChecker.detect_format
  rw [if_pos h]

lemma oc_detect_eq_markdown {c : List Char}
    (h0 : OutputChecker.html_count c = 0)
    (h : 2 < OutputChecker.markdown_count c) :
    OutputChecker.detect_format c
      = "Markdown (indicators: " ++ toString (OutputChecker.markdown_count c) ++ ")" := by
  unfold OutputChecker.detect_format
  rw [if_neg (by omega), if_pos h]

lemma oc_detect_eq_json {c : List Char}
    (h0 : OutputChecker.html_count c = 0)
    (h1 : OutputChecker.markdown_count c ≤ 2)
    (h : 3 < OutputChecker.json_count c) :
    OutputChecker.detect_format c
      = "JSON (indicators: " ++ toString (OutputChecker.json_count c) ++ ")" := by
  unfold OutputChecker.detect_format
  rw [if_neg (by omega), if_neg (by omega), if_pos h]

lemma oc_detect_eq_plain {c : List Char}
    (h0 : OutputChecker.html_count c = 0)
    (h1 : OutputChecker.markdown_count c ≤ 2)
    (h2 : OutputChecker.json_count c ≤ 3) :
    OutputChecker.detect_format c = "Plain text" := by
  unfold OutputChecker.detect_format
  rw [if_neg (by omega), if_neg (by omega), if_neg (by omega)]

lemma tla2_detect_eq_html {c : List Char}
    (h : 0 < TestLayoutApi2.html_count c) :
    TestLayoutApi2.detect_format c
      = "HTML (indicadores: " ++ toString (TestLayoutApi2.html_count c) ++ ")" := by
  unfold TestLayoutApi2.detect_format
  rw [if_pos h]

lemma tla2_detect_eq_markdown {c : List Char}
    (h0 : TestLayoutApi2.html_count c = 0)
    (h : 2 < TestLayoutApi2.markdown_count c) :
    TestLayoutApi2.detect_format c
      = "Markdown (indicadores: " ++ toString (TestLayoutApi2.markdown_count c) ++ ")" := by
  unfold TestLayoutApi2.detect_format
  rw [if_neg (by omega), if_pos h]

lemma tla2_detect_eq_json {c : List Char}
    (h0 : TestLayoutApi2.html_count c = 0)
    (h1 : TestLayoutApi2.markdown_count c ≤ 2)
    (h : 3 < TestLayoutApi2.json_count c) :
    TestLayoutApi2.detect_format c
      = "JSON (indicadores: " ++ toString (TestLayoutApi2.json_count c) ++ ")" := by
  unfold TestLayoutApi2.detect_format
  rw [if_neg (by omega), if_neg (by omega), if_pos h]

lemma tla2_detect_eq_plain {c : List Char}
    (h0 : TestLayoutApi2.html_count c = 0)
    (h1 : TestLayoutApi2.markdown_count c ≤ 2)
    (h2 : TestLayoutApi2.json_count c ≤ 3) :
    TestLayoutApi2.detect_format c = "Texto plano" := by
  unfold TestLayoutApi2.detect_format
  rw [if_neg (by omega), if_neg (by omega), if_neg (by omega)]

lemma tla_detect_eq_html {c : List Char}
    (h : 0 < TestLayoutApi.html_count c) :
    TestLayoutApi.detect_format c
      = "HTML (indicadores: " ++ toString (TestLayoutApi.html_count c) ++ ")" := by
  unfold TestLayoutApi.detect_format
  rw [if_pos h]

lemma tla_detect_eq_markdown {c : List Char}
    (h0 : TestLayoutApi.html_count c = 0)
    (h : 2 < TestLayoutApi.markdown_count c) :
    TestLayoutApi.detect_format c
      = "Markdown (indicadores: " ++ toString (TestLayoutApi.markdown_count c) ++ ")" := by
  unfold TestLayoutApi.detect_format
  rw [if_neg (by omega), if_pos h]

lemma tla_detect_eq_plain {c : List Char}
    (h0 : TestLayoutApi.html_count c = 0)
    (h1 : TestLayoutApi.markdown_count c ≤ 2) :
    TestLayoutApi.detect_format c = "Texto plano" := by
  unfold TestLayoutApi.detect_format
  rw [if_neg (by omega), if_neg (by omega)]

/-! ### Label of the detection result, per script -/

lemma oc_label_detect (c : List Char) :
    labelOf (OutputChecker.detect_format c) =
      if 0 < OutputChecker.html_count c then Label.HTML
      else if 2 < OutputChecker.markdown_count c then Label.Markdown
      else if 3 < OutputChecker.json_count c then Label.JSON
      else Label.PlainText := by
  by_cases h1 : 0 < OutputChecker.html_count c
  · rw [if_pos h1, oc_detect_eq_html h1, labelOf_html_en h1 (oc_html_count_le c)]
  · have h1' : OutputChecker.html_count c = 0 := by omega
    rw [if_neg h1]
    by_cases h2 : 2 < OutputChecker.markdown_count c
    · rw [if_pos h2, oc_detect_eq_markdown h1' h2,
        labelOf_markdown_en h2 (oc_markdown_count_le c)]
    · rw [if_neg h2]
      by_cases h3 : 3 < OutputChecker.json_count c
      · rw [if_pos h3, oc_detect_eq_json h1' (by omega) h3,
          labelOf_json_en h3 (oc_json_count_le c)]
      · rw [if_neg h3, oc_detect_eq_plain h1' (by omega) (by omega),
          labelOf_plain_en]

lemma tla2_label_detect (c : List Char) :
    labelOf (TestLayoutApi2.detect_format c) =
      if 0 < TestLayoutApi2.html_count c then Label.HTML
      else if 2 < TestLayoutApi2.markdown_count c then Label.Markdown
      else if 3 < TestLayoutApi2.json_count c then Label.JSON
      else Label.PlainText := by
  by_cases h1 : 0 < TestLayoutApi2.html_count c
  · rw [if_pos h1, tla2_detect_eq_html h1,
      labelOf_html_es h1 (oc_html_count_le c)]
  · have h1' : TestLayoutApi2.html_count c = 0 := by omega
    rw [if_neg h1]
    by_cases h2 : 2 < TestLayoutApi2.markdown_count c
    · rw [if_pos h2, tla2_detect_eq_markdown h1' h2,
        labelOf_markdown_es h2 (oc_markdown_count_le c)]
    · rw [if_neg h2]
      by_cases h3 : 3 < TestLayoutApi2.json_count c
      · rw [if_pos h3, tla2_detect_eq_json h1' (by omega) h3,
          labelOf_json_es h3 (oc_json_count_le c)]
      · rw [if_neg h3, tla2_detect_eq_plain h1' (by omega) (by omega),
          labelOf_plain_es]

lemma tla_label_detect (c : List Char) :
    labelOf (TestLayoutApi.detect_format c) =
      if 0 < TestLayoutApi.html_count c then Label.HTML
      else if 2 < TestLayoutApi.markdown_count c then Label.Markdown
      else Label.PlainText := by
  by_cases h1 : 0 < TestLayoutApi.html_count c
  · rw [if_pos h1, tla_detect_eq_html h1,
      labelOf_html_es h1 ((tla_html_count_le c).trans (by omega))]
  · have h1' : TestLayoutApi.html_count c = 0 := by omega
    rw [if_neg h1]
    by_cases h2 : 2 < TestLayoutApi.markdown_count c
    · rw [if_pos h2, tla_detect_eq_markdown h1' h2,
        labelOf_markdown_es h2 ((tla_markdown_count_le c).trans (by omega))]
    · rw [if_neg h2, tla_detect_eq_plain h1' (by omega), labelOf_plain_es]

/-- The smaller indicator lists of `test_layout_api.py` are sub-lists
of the corresponding lists of the other two scripts, so its counts are
bounded by theirs. -/
lemma tla_counts_le (c : List Char) :
    TestLayoutApi.html_count c ≤ OutputChecker.html_count c
    ∧ TestLayoutApi.markdown_count c ≤ OutputChecker.markdown_count c :=
  ⟨count_indicators_sublist_le (List.sublist_append_left _ _) _,
   count_indicators_sublist_le (List.sublist_append_left _ _) _⟩

/-- The third script can only yield the HTML, Markdown or plain-text
label: it computes no JSON count. -/
lemma tla_label_detect_cases (c : List Char) :
    labelOf (TestLayoutApi.detect_format c) = Label.HTML
    ∨ labelOf (TestLayoutApi.detect_format c) = Label.Markdown
    ∨ labelOf (TestLayoutApi.detect_format c) = Label.PlainText := by
  rw [tla_label_detect c]
  by_cases h1 : 0 < TestLayoutApi.html_count c
  · rw [if_pos h1]; exact Or.inl rfl
  · rw [if_neg h1]
    by_cases h2 : 2 < TestLayoutApi.markdown_count c
    · rw [if_pos h2]; exact Or.inr (Or.inl rfl)
    · rw [if_neg h2]; exact Or.inr (Or.inr rfl)


/-! ### Claim theorems -/

/-- C1: for every content string, the classifiers of
`output-checker-layout-api.py` and `test_layout_api2.py` resolve the
label by the fixed priority and threshold policy: HTML if the HTML
indicator count is positive, else Markdown if the Markdown count
exceeds 2, else JSON if the JSON count exceeds 3, else plain text. -/
theorem C1_priority_threshold_policy (c : List Char) :
    labelOf (OutputChecker.detect_format c) =
      (if 0 < OutputChecker.html_count c then Label.HTML
       else if 2 < OutputChecker.markdown_count c then Label.Markdown
       else if 3 < OutputChecker.json_count c then Label.JSON
       else Label.PlainText)
    ∧ labelOf (TestLayoutApi2.detect_format c) =
      (if 0 < TestLayoutApi2.html_count c then Label.HTML
       else if 2 < TestLayoutApi2.markdown_count c then Label.Markdown
       else if 3 < TestLayoutApi2.json_count c then Label.JSON
       else Label.PlainText) :=
  ⟨oc_label_detect c, tla2_label_detect c⟩

/-- C2: the HTML indicator scan is case-insensitive — the HTML count of
every script depends only on the lower-cased content, so contents equal
up to case have equal HTML counts — and content consisting of `<DIV>`
(upper case, no other indicator) is labeled HTML by all three scripts. -/
theorem C2_html_scan_case_insensitive (c₁ c₂ : List Char)
    (h : c₁.map Char.toLower = c₂.map Char.toLower) :
    OutputChecker.html_count c₁ = OutputChecker.html_count c₂
    ∧ TestLayoutApi2.html_count c₁ = TestLayoutApi2.html_count c₂
    ∧ TestLayoutApi.html_count c₁ = TestLayoutApi.html_count c₂
    ∧ labelOf (OutputChecker.detect_format ("<DIV>".toList)) = Label.HTML
    ∧ labelOf (TestLayoutApi2.detect_format ("<DIV>".toList)) = Label.HTML
    ∧ labelOf (TestLayoutApi.detect_format ("<DIV>".toList)) = Label.HTML := by
  refine ⟨?_, ?_, ?_, by decide, by decide, by decide⟩
  · unfold OutputChecker.html_count
    rw [h]
  · unfold TestLayoutApi2.html_count
    rw [h]
  · unfold TestLayoutApi.html_count
    rw [h]

/-- Witness for C2 at the concrete pair `<DIV>` / `<div>`. -/
theorem C2_witness :
    ("<DIV>".toList).map Char.toLower = ("<div>".toList).map Char.toLower
    ∧ OutputChecker.html_count ("<DIV>".toList)
        = OutputChecker.html_count ("<div>".toList) :=
  ⟨by decide,
   (C2_html_scan_case_insensitive ("<DIV>".toList) ("<div>".toList) (by decide)).1⟩

/-- C3: for a duplicate-free indicator list the count equals the number
of distinct indicators occurring at least once in the content (presence
counts 1 per indicator, independent of occurrence frequency), hence the
count never exceeds the length of the indicator list; and all the
scripts' indicator lists are duplicate-free. -/
theorem C3_presence_counting (inds : List (List Char)) (c : List Char)
    (hnd : inds.Nodup) :
    count_indicators inds c ≤ inds.length
    ∧ count_indicators inds c
        = (inds.toFinset.filter (fun i => subOccurs i c = true)).card
    ∧ (∀ c', (∀ i ∈ inds, subOccurs i c = subOccurs i c') →
        count_indicators inds c = count_indicators inds c')
    ∧ OutputChecker.html_indicators.Nodup
    ∧ OutputChecker.markdown_indicators.Nodup
    ∧ OutputChecker.json_indicators.Nodup
    ∧ TestLayoutApi2.html_indicators.Nodup
    ∧ TestLayoutApi2.markdown_indicators.Nodup
    ∧ TestLayoutApi2.json_indicators.Nodup
    ∧ TestLayoutApi.html_indicators.Nodup
    ∧ TestLayoutApi.markdown_indicators.Nodup :=
  ⟨count_indicators_le _ _, count_indicators_eq_card c hnd,
   fun _ h => count_indicators_congr h,
   by decide, by decide, by decide, by decide, by decide, by decide,
   by decide, by decide⟩

/-- Witness for C3: on the JSON indicator list, content with the brace
repeated three times counts 1, the same as content with one brace. -/
theorem C3_witness :
    OutputChecker.json_indicators.Nodup
    ∧ count_indicators OutputChecker.json_indicators ("\x7b\x7b\x7b".toList)
        ≤ OutputChecker.json_indicators.length
    ∧ count_indicators OutputChecker.json_indicators ("\x7b\x7b\x7b".toList)
        = count_indicators OutputChecker.json_indicators ("\x7b".toList) := by
  have h := C3_presence_counting OutputChecker.json_indicators
    ("\x7b\x7b\x7b".toList) (by decide)
  exact ⟨by decide, h.1, h.2.2.1 ("\x7b".toList) (by decide)⟩

/-- C7: the classifiers are total — on every content each script
returns one of its well-formed detection strings (HTML, Markdown,
JSON or plain text, with the winning count embedded), and the extracted
label is one of the four labels. -/
theorem C7_totality (c : List Char) :
    ((∃ n : Nat, OutputChecker.detect_format c
        = "HTML (indicators: " ++ toString n ++ ")")
     ∨ (∃ n : Nat, OutputChecker.detect_format c
        = "Markdown (indicators: " ++ toString n ++ ")")
     ∨ (∃ n : Nat, OutputChecker.detect_format c
        = "JSON (indicators: " ++ toString n ++ ")")
     ∨ OutputChecker.detect_format c = "Plain text")
    ∧ ((∃ n : Nat, TestLayoutApi2.detect_format c
        = "HTML (indicadores: " ++ toString n ++ ")")
     ∨ (∃ n : Nat, TestLayoutApi2.detect_format c
        = "Markdown (indicadores: " ++ toString n ++ ")")
     ∨ (∃ n : Nat, TestLayoutApi2.detect_format c
        = "JSON (indicadores: " ++ toString n ++ ")")
     ∨ TestLayoutApi2.detect_format c = "Texto plano")
    ∧ ((∃ n : Nat, TestLayoutApi.detect_format c
        = "HTML (indicadores: " ++ toString n ++ ")")
     ∨ (∃ n : Nat, TestLayoutApi.detect_format c
        = "Markdown (indicadores: " ++ toString n ++ ")")
     ∨ TestLayoutApi.detect_format c = "Texto plano")
    ∧ (labelOf (OutputChecker.detect_format c) = Label.HTML
     ∨ labelOf (OutputChecker.detect_format c) = Label.Markdown
     ∨ labelOf (OutputChecker.detect_format c) = Label.JSON
     ∨ labelOf (OutputChecker.detect_format c) = Label.PlainText) := by
  refine ⟨?_, ?_, ?_, ?_⟩
  · by_cases h1 : 0 < OutputChecker.html_count c
    · exact Or.inl ⟨_, oc_detect_eq_html h1⟩
    · by_cases h2 : 2 < OutputChecker.markdown_count c
      · exact Or.inr (Or.inl ⟨_,
          oc_detect_eq_markdown (by omega) h2⟩)
      · by_cases h3 : 3 < OutputChecker.json_count c
        · exact Or.inr (Or.inr (Or.inl ⟨_,
            oc_detect_eq_json (by omega) (by omega) h3⟩))
        · exact Or.inr (Or.inr (Or.inr
            (oc_detect_eq_plain (by omega) (by omega) (by omega))))
  · by_cases h1 : 0 < TestLayoutApi2.html_count c
    · exact Or.inl ⟨_, tla2_detect_eq_html h1⟩
    · by_cases h2 : 2 < TestLayoutApi2.markdown_count c
      · exact Or.inr (Or.inl ⟨_,
          tla2_detect_eq_markdown (by omega) h2⟩)
      · by_cases h3 : 3 < TestLayoutApi2.json_count c
        · exact Or.inr (Or.inr (Or.inl ⟨_,
            tla2_detect_eq_json (by omega) (by omega) h3⟩))
        · exact Or.inr (Or.inr (Or.inr
            (tla2_detect_eq_plain (by omega) (by omega) (by omega))))
  · by_cases h1 : 0 < TestLayoutApi.html_count c
    · exact Or.inl ⟨_, tla_detect_eq_html h1⟩
    · by_cases h2 : 2 < TestLayoutApi.markdown_count c
      · exact Or.inr (Or.inl ⟨_,
          tla_detect_eq_markdown (by omega) h2⟩)
      · exact Or.inr (Or.inr
          (tla_detect_eq_plain (by omega) (by omega)))
  · cases h : labelOf (OutputChecker.detect_format c)
    · exact Or.inl rfl
    · exact Or.inr (Or.inl rfl)
    · exact Or.inr (Or.inr (Or.inl rfl))
    · exact Or.inr (Or.inr (Or.inr rfl))

/-- C8: determinism — each script's classifier is a pure function of
the content, so two invocations on identical content yield identical
results.  (The source reads only its argument and the literal indicator
lists, so the pure embedding is faithful: there is no other state.) -/
theorem C8_deterministic (c₁ c₂ : List Char) (h : c₁ = c₂) :
    OutputChecker.detect_format c₁ = OutputChecker.detect_format c₂
    ∧ TestLayoutApi2.detect_format c₁ = TestLayoutApi2.detect_format c₂
    ∧ TestLayoutApi.detect_format c₁ = TestLayoutApi.detect_format c₂ := by
  subst h
  exact ⟨rfl, rfl, rfl⟩

/-- Witness for C8 at a concrete content. -/
theorem C8_witness :
    OutputChecker.detect_format ("sample content".toList)
      = OutputChecker.detect_format ("sample content".toList)
    ∧ TestLayoutApi2.detect_format ("sample content".toList)
      = TestLayoutApi2.detect_format ("sample content".toList)
    ∧ TestLayoutApi.detect_format ("sample content".toList)
      = TestLayoutApi.detect_format ("sample content".toList) :=
  C8_deterministic ("sample content".toList) ("sample content".toList) rfl

/-- Counterexample to C4: the content consisting of the eight characters
brace, quote, colon, space, bracket, quote, `x`, closing brace has
exactly 4 distinct JSON indicators, no HTML indicator and no Markdown
indicator, yet the classifier of `test_layout_api.py` (which computes
no JSON count) returns plain text, not JSON. -/
theorem C4_counterexample :
    OutputChecker.json_count ("\x7b\": [\"x\x7d".toList) = 4
    ∧ OutputChecker.html_count ("\x7b\": [\"x\x7d".toList) = 0
    ∧ OutputChecker.markdown_count ("\x7b\": [\"x\x7d".toList) ≤ 2
    ∧ TestLayoutApi.html_count ("\x7b\": [\"x\x7d".toList) = 0
    ∧ TestLayoutApi.markdown_count ("\x7b\": [\"x\x7d".toList) ≤ 2
    ∧ TestLayoutApi.detect_format ("\x7b\": [\"x\x7d".toList) = "Texto plano"
    ∧ labelOf (TestLayoutApi.detect_format ("\x7b\": [\"x\x7d".toList))
        ≠ Label.JSON := by
  decide

/-- C4 (amended): content with exactly 4 distinct JSON indicators, no
HTML indicator and at most 2 Markdown indicators is labeled JSON by
`output-checker-layout-api.py` and `test_layout_api2.py`; the classifier
of `test_layout_api.py` computes no JSON count and never yields the
JSON label. -/
theorem C4_amended (c : List Char)
    (hj : OutputChecker.json_count c = 4)
    (hh : OutputChecker.html_count c = 0)
    (hm : OutputChecker.markdown_count c ≤ 2) :
    labelOf (OutputChecker.detect_format c) = Label.JSON
    ∧ labelOf (TestLayoutApi2.detect_format c) = Label.JSON
    ∧ labelOf (TestLayoutApi.detect_format c) = Label.PlainText
    ∧ labelOf (TestLayoutApi.detect_format c) ≠ Label.JSON := by
  obtain ⟨e1, e2, e3⟩ := tla2_counts_eq c
  obtain ⟨l1, l2⟩ := tla_counts_le c
  have htla : TestLayoutApi.detect_format c = "Texto plano" :=
    tla_detect_eq_plain (by omega) (by omega)
  refine ⟨?_, ?_, ?_, ?_⟩
  · rw [oc_label_detect c, if_neg (by omega), if_neg (by omega),
      if_pos (by omega)]
  · rw [tla2_label_detect c, e1, e2, e3, if_neg (by omega),
      if_neg (by omega), if_pos (by omega)]
  · rw [htla, labelOf_plain_es]
  · rw [htla, labelOf_plain_es]
    decide

/-- Witness for C4 (amended) at the concrete 4-JSON-indicator content. -/
theorem C4_witness :
    labelOf (OutputChecker.detect_format ("\x7b\": [\"x\x7d".toList)) = Label.JSON
    ∧ labelOf (TestLayoutApi2.detect_format ("\x7b\": [\"x\x7d".toList)) = Label.JSON
    ∧ labelOf (TestLayoutApi.detect_format ("\x7b\": [\"x\x7d".toList)) = Label.PlainText
    ∧ labelOf (TestLayoutApi.detect_format ("\x7b\": [\"x\x7d".toList)) ≠ Label.JSON :=
  C4_amended ("\x7b\": [\"x\x7d".toList) (by decide) (by decide) (by decide)

/-- Counterexample to C5: the content `**` followed by brace, quote,
colon, space, bracket, quote, `x`, closing brace has exactly 2 distinct
Markdown indicators and no HTML indicator, yet both classifiers with a
JSON branch label it JSON (4 JSON indicators exceed the threshold 3),
not plain text. -/
theorem C5_counterexample :
    OutputChecker.markdown_count ("**\x7b\": [\"x\x7d".toList) = 2
    ∧ OutputChecker.html_count ("**\x7b\": [\"x\x7d".toList) = 0
    ∧ OutputChecker.json_count ("**\x7b\": [\"x\x7d".toList) = 4
    ∧ labelOf (OutputChecker.detect_format ("**\x7b\": [\"x\x7d".toList))
        = Label.JSON
    ∧ labelOf (OutputChecker.detect_format ("**\x7b\": [\"x\x7d".toList))
        ≠ Label.PlainText
    ∧ labelOf (TestLayoutApi2.detect_format ("**\x7b\": [\"x\x7d".toList))
        = Label.JSON
    ∧ labelOf (TestLayoutApi2.detect_format ("**\x7b\": [\"x\x7d".toList))
        ≠ Label.PlainText := by
  decide

/-- C5 (amended): content with exactly 2 distinct Markdown indicators,
no HTML indicator, and additionally at most 3 JSON indicators is
labeled plain text by `output-checker-layout-api.py` and
`test_layout_api2.py` (the Markdown threshold is strictly greater
than 2). -/
theorem C5_amended (c : List Char)
    (hm : OutputChecker.markdown_count c = 2)
    (hh : OutputChecker.html_count c = 0)
    (hj : OutputChecker.json_count c ≤ 3) :
    labelOf (OutputChecker.detect_format c) = Label.PlainText
    ∧ labelOf (TestLayoutApi2.detect_format c) = Label.PlainText := by
  obtain ⟨e1, e2, e3⟩ := tla2_counts_eq c
  refine ⟨?_, ?_⟩
  · rw [oc_label_detect c, if_neg (by omega), if_neg (by omega),
      if_neg (by omega)]
  · rw [tla2_label_detect c, e1, e2, e3, if_neg (by omega),
      if_neg (by omega), if_neg (by omega)]

/-- Witness for C5 (amended): the content `** ` has exactly the two
Markdown indicators `**` and `*`, no HTML indicator and no JSON
indicator. -/
theorem C5_witness :
    labelOf (OutputChecker.detect_format ("** ".toList)) = Label.PlainText
    ∧ labelOf (TestLayoutApi2.detect_format ("** ".toList)) = Label.PlainText :=
  C5_amended ("** ".toList) (by decide) (by decide) (by decide)

/-- Counterexample to C6: on empty content all counts are zero and the
label is plain text, but the returned result is the bare string
`"Plain text"` (resp. `"Texto plano"`), which carries no count — it
does not even contain the digit `0` — so the result does not always
carry the integer count of the winning category. -/
theorem C6_counterexample :
    OutputChecker.html_count [] = 0
    ∧ OutputChecker.markdown_count [] = 0
    ∧ OutputChecker.json_count [] = 0
    ∧ OutputChecker.detect_format [] = "Plain text"
    ∧ subOccurs ("0".toList) (OutputChecker.detect_format []).toList = false
    ∧ TestLayoutApi2.detect_format [] = "Texto plano"
    ∧ subOccurs ("0".toList) (TestLayoutApi2.detect_format []).toList = false
    ∧ TestLayoutApi.detect_format [] = "Texto plano"
    ∧ subOccurs ("0".toList) (TestLayoutApi.detect_format []).toList = false := by
  decide

/-- C6 (amended): on empty content all three indicator counts are zero
and every script returns the plain-text result; the HTML, Markdown and
JSON results carry the integer count of the winning category in the
returned string, but the plain-text result carries no count. -/
theorem C6_amended :
    (OutputChecker.html_count [] = 0 ∧ OutputChecker.markdown_count [] = 0
      ∧ OutputChecker.json_count [] = 0)
    ∧ labelOf (OutputChecker.detect_format []) = Label.PlainText
    ∧ labelOf (TestLayoutApi2.detect_format []) = Label.PlainText
    ∧ labelOf (TestLayoutApi.detect_format []) = Label.PlainText
    ∧ OutputChecker.detect_format [] = "Plain text"
    ∧ (∀ c, 0 < OutputChecker.html_count c →
        OutputChecker.detect_format c
          = "HTML (indicators: " ++ toString (OutputChecker.html_count c) ++ ")")
    ∧ (∀ c, OutputChecker.html_count c = 0 →
        2 < OutputChecker.markdown_count c →
        OutputChecker.detect_format c
          = "Markdown (indicators: " ++ toString (OutputChecker.markdown_count c) ++ ")")
    ∧ (∀ c, OutputChecker.html_count c = 0 →
        OutputChecker.markdown_count c ≤ 2 →
        3 < OutputChecker.json_count c →
        OutputChecker.detect_format c
          = "JSON (indicators: " ++ toString (OutputChecker.json_count c) ++ ")")
    ∧ (∀ c, OutputChecker.html_count c = 0 →
        OutputChecker.markdown_count c ≤ 2 →
        OutputChecker.json_count c ≤ 3 →
        OutputChecker.detect_format c = "Plain text") :=
  ⟨by decide, by decide, by decide, by decide, by decide,
   fun _ h => oc_detect_eq_html h,
   fun _ h0 h => oc_detect_eq_markdown h0 h,
   fun _ h0 h1 h => oc_detect_eq_json h0 h1 h,
   fun _ h0 h1 h2 => oc_detect_eq_plain h0 h1 h2⟩

/-- Witness for C6 (amended): the winning count is embedded in the
result string on concrete HTML, Markdown and JSON contents, and a
low-indicator content yields the bare plain-text string. -/
theorem C6_witness :
    OutputChecker.detect_format ("<div>".toList)
      = "HTML (indicators: "
          ++ toString (OutputChecker.html_count ("<div>".toList)) ++ ")"
    ∧ OutputChecker.detect_format ("# ## ### ".toList)
      = "Markdown (indicators: "
          ++ toString (OutputChecker.markdown_count ("# ## ### ".toList)) ++ ")"
    ∧ OutputChecker.detect_format ("\x7b\": [\"x\x7d".toList)
      = "JSON (indicators: "
          ++ toString (OutputChecker.json_count ("\x7b\": [\"x\x7d".toList)) ++ ")"
    ∧ OutputChecker.detect_format ("hello".toList) = "Plain text" :=
  ⟨C6_amended.2.2.2.2.2.1 ("<div>".toList) (by decide),
   C6_amended.2.2.2.2.2.2.1 ("# ## ### ".toList) (by decide) (by decide),
   C6_amended.2.2.2.2.2.2.2.1 ("\x7b\": [\"x\x7d".toList)
     (by decide) (by decide) (by decide),
   C6_amended.2.2.2.2.2.2.2.2 ("hello".toList)
     (by decide) (by decide) (by decide)⟩

/-- C9: content containing the four-character indicator `### ` (and no
HTML indicator) is labeled Markdown by all three scripts: `# ` and
`## ` are substrings of `### `, so the Markdown count is at least 3,
which exceeds the threshold 2. -/
theorem C9_triple_hash_markdown (c : List Char)
    (h1 : subOccurs ("### ".toList) c = true)
    (h2 : OutputChecker.html_count c = 0) :
    labelOf (OutputChecker.detect_format c) = Label.Markdown
    ∧ labelOf (TestLayoutApi2.detect_format c) = Label.Markdown
    ∧ labelOf (TestLayoutApi.detect_format c) = Label.Markdown
    ∧ 3 ≤ OutputChecker.markdown_count c := by
  have hA : subOccurs ("# ".toList) c = true := subOccurs_trans (by decide) h1
  have hB : subOccurs ("## ".toList) c = true := subOccurs_trans (by decide) h1
  have hsub1 : (["# ".toList, "## ".toList, "### ".toList]).Sublist
      OutputChecker.markdown_indicators := List.sublist_append_left _ _
  have hsub3 : (["# ".toList, "## ".toList, "### ".toList]).Sublist
      TestLayoutApi.markdown_indicators := List.sublist_append_left _ _
  have hmd : 3 ≤ OutputChecker.markdown_count c :=
    three_le_count_indicators hsub1 c hA hB h1
  have hmd3 : 3 ≤ TestLayoutApi.markdown_count c :=
    three_le_count_indicators hsub3 c hA hB h1
  have hh3 : TestLayoutApi.html_count c = 0 := by
    have := (tla_counts_le c).1
    omega
  obtain ⟨e1, e2, e3⟩ := tla2_counts_eq c
  refine ⟨?_, ?_, ?_, hmd⟩
  · rw [oc_label_detect c, if_neg (by omega), if_pos (by omega)]
  · rw [tla2_label_detect c, e1, e2, if_neg (by omega),
      if_pos (by omega)]
  · rw [tla_label_detect c, if_neg (by omega), if_pos (by omega)]

/-- Witness for C9 at the concrete content `### x`. -/
theorem C9_witness :
    labelOf (OutputChecker.detect_format ("### x".toList)) = Label.Markdown
    ∧ labelOf (TestLayoutApi2.detect_format ("### x".toList)) = Label.Markdown
    ∧ labelOf (TestLayoutApi.detect_format ("### x".toList)) = Label.Markdown
    ∧ 3 ≤ OutputChecker.markdown_count ("### x".toList) :=
  C9_triple_hash_markdown ("### x".toList) (by decide) (by decide)

/-- C10: the classifier of `test_layout_api.py` never yields the JSON
label — every content is labeled HTML, Markdown or plain text — and,
compared with the other two scripts, its HTML indicator list lacks
`<h1>` and `<h2>` and its Markdown indicator list lacks the
triple-backtick fence. -/
theorem C10_no_json_label (c : List Char) :
    (labelOf (TestLayoutApi.detect_format c) = Label.HTML
     ∨ labelOf (TestLayoutApi.detect_format c) = Label.Markdown
     ∨ labelOf (TestLayoutApi.detect_format c) = Label.PlainText)
    ∧ labelOf (TestLayoutApi.detect_format c) ≠ Label.JSON
    ∧ ("<h1>".toList ∈ OutputChecker.html_indicators
        ∧ "<h1>".toList ∈ TestLayoutApi2.html_indicators
        ∧ "<h1>".toList ∉ TestLayoutApi.html_indicators)
    ∧ ("<h2>".toList ∈ OutputChecker.html_indicators
        ∧ "<h2>".toList ∈ TestLayoutApi2.html_indicators
        ∧ "<h2>".toList ∉ TestLayoutApi.html_indicators)
    ∧ ("```".toList ∈ OutputChecker.markdown_indicators
        ∧ "```".toList ∈ TestLayoutApi2.markdown_indicators
        ∧ "```".toList ∉ TestLayoutApi.markdown_indicators) := by
  refine ⟨tla_label_detect_cases c, ?_, by decide, by decide, by decide⟩
  rcases tla_label_detect_cases c with h | h | h <;> rw [h] <;> decide
